import Mathlib

/-!
Verification development for the willys-mcp client library.

The Go source is shallowly embedded: pure helpers become Lean functions,
`float64` values are modelled as exact rationals (`ℚ`), Go strings as Lean
`String`, and every network interaction is made explicit by passing the
observable outcomes of the individual HTTP round-trips as an environment
record to the function under study.  Fallible Go functions returning
`error` are modelled with `Except`/`Option`.
-/

namespace Willys

/-- Model of Go `strings.Contains s sub`: `sub` occurs as a contiguous
substring of `s` (the empty string occurs in every string). -/
def goContains (s sub : String) : Bool :=
  s.data.tails.any (fun t => sub.data.isPrefixOf t)

/-- Numeric value of an ASCII digit character. -/
def digitVal (c : Char) : ℕ :=
  c.toNat - '0'.toNat

/-- Natural number denoted by a list of ASCII digit characters (most
significant first). -/
def natOfDigits (ds : List Char) : ℕ :=
  ds.foldl (fun a c => a * 10 + digitVal c) 0

/-- Exponent part of Go `strconv.ParseFloat`: an optional `e`/`E` followed by
an optionally signed non-empty digit string; scales the mantissa by the
corresponding power of ten.  An empty remainder leaves the mantissa as is;
anything else is a syntax error. -/
def parseExpPart (mant : ℚ) : List Char → Option ℚ
  | [] => some mant
  | c :: rest =>
    if c = 'e' ∨ c = 'E' then
      let (negExp, rest2) :=
        match rest with
        | '+' :: r => (false, r)
        | '-' :: r => (true, r)
        | r => (false, r)
      let eds := rest2.takeWhile Char.isDigit
      let tail := rest2.dropWhile Char.isDigit
      if eds.isEmpty ∨ ¬ tail.isEmpty then none
      else
        let e := natOfDigits eds
        some (if negExp then mant / 10 ^ e else mant * 10 ^ e)
    else none

/-- Mantissa part of Go `strconv.ParseFloat` after the optional sign: decimal
digits with at most one decimal point and at least one digit overall,
followed by an optional exponent part. -/
def parseMantissa (cs : List Char) : Option ℚ :=
  let ipart := cs.takeWhile Char.isDigit
  let rest1 := cs.dropWhile Char.isDigit
  match rest1 with
  | '.' :: rest2 =>
    let fpart := rest2.takeWhile Char.isDigit
    let rest3 := rest2.dropWhile Char.isDigit
    if ipart.isEmpty ∧ fpart.isEmpty then none
    else
      parseExpPart ((natOfDigits ipart : ℚ) + (natOfDigits fpart : ℚ) / 10 ^ fpart.length) rest3
  | rest =>
    if ipart.isEmpty then none
    else parseExpPart (natOfDigits ipart : ℚ) rest

/-- Model of Go `strconv.ParseFloat s 64` restricted to the finite decimal
forms (optional sign, decimal digits with optional fraction, optional
decimal exponent), with the value represented exactly as a rational.
`none` is a parse error (Go then returns `0` together with the error).
The special spellings `inf`/`nan` and the hexadecimal float forms, which
denote no finite decimal value, are outside the modelled domain. -/
def goParseFloat (s : String) : Option ℚ :=
  match s.data with
  | '+' :: rest => parseMantissa rest
  | '-' :: rest => (parseMantissa rest).map (fun q => -q)
  | cs => parseMantissa cs

/-- Model of Go `strings.ReplaceAll s "," "."` (a single-character pattern,
so a character-wise map). -/
def replaceCommas (s : String) : String :=
  s.map (fun c => if c = ',' then '.' else c)

/-- Go `parseComparePriceToFloat` from the search code: strip a trailing
`" kr"` suffix, turn decimal commas into points, and parse as a float,
ignoring the parse error (an unparseable string yields `0`). -/
def parseComparePriceToFloat (priceStr : String) : ℚ :=
  let s1 := priceStr.stripSuffix " kr"
  let s2 := replaceCommas s1
  (goParseFloat s2).getD 0

/-- Go `Product` from the search code (image collapsed to its URL field). -/
structure Product where
  code : String
  name : String
  priceValue : ℚ
  price : String
  comparePrice : String
  comparePriceUnit : String
  displayVolume : String
  manufacturer : String
  labels : List String
  online : Bool
  outOfStock : Bool
  savingsAmount : Option ℚ
  imageURL : String
deriving Repr, DecidableEq

/-- Go `SearchPreferences` from the search code. -/
structure SearchPreferences where
  priceSensitivity : String
  maxPricePerUnit : ℚ
  requiredLabels : List String
  preferredLabels : List String
  sortBy : String
deriving Repr, DecidableEq

/-- Go `filterProducts` from the search code: keep a product when the
price-per-unit ceiling (if one is set) is not exceeded by its parsed
compare price, and every required label occurs (case-insensitively, as a
substring) in at least one product label. -/
def filterProducts (products : List Product) (prefs : SearchPreferences) : List Product :=
  let lowercaseRequired := prefs.requiredLabels.map String.toLower
  products.filter (fun p =>
    (if 0 < prefs.maxPricePerUnit then
      decide (parseComparePriceToFloat p.comparePrice ≤ prefs.maxPricePerUnit)
    else true)
    &&
    (if lowercaseRequired.length = 0 then true
     else
       lowercaseRequired.all (fun reqLabel =>
         (p.labels.map String.toLower).any (fun label => goContains label reqLabel))))

/-- The fixed quality-label set of `calculateValueScore`. -/
def qualityLabels : List String :=
  ["krav", "ekologisk", "nyckelhål", "svensk"]

/-- Whether some recognized quality label occurs (case-insensitively) in the
given product label — the inner loop of `calculateValueScore`, whose
`break` makes it an existence check. -/
def matchesQualityLabel (label : String) : Bool :=
  qualityLabels.any (fun quality => goContains label.toLower quality)

/-- Per-label bonus of `calculateValueScore`: a label adds 10 points when
some recognized quality label occurs in its lowercased text (the inner
loop stops at the first match, so one label adds at most 10). -/
def labelQualityBonus (label : String) : ℚ :=
  if matchesQualityLabel label then 10 else 0

/-- Go `calculateValueScore` from the search code: `100 / comparePrice` when the
parsed compare price is positive, plus the per-label quality bonuses, plus
half of a positive savings amount. -/
def calculateValueScore (p : Product) : ℚ :=
  let comparePrice := parseComparePriceToFloat p.comparePrice
  let base : ℚ := if 0 < comparePrice then 100 / comparePrice else 0
  let withLabels := p.labels.foldl (fun score label => score + labelQualityBonus label) base
  match p.savingsAmount with
  | some s => if 0 < s then withLabels + s * (1 / 2) else withLabels
  | none => withLabels

/-- The comparison closure passed to `sort.Slice` in `sortProducts`
(`true` when product `pi` must come strictly before product `pj`). -/
def sortLess (prefs : SearchPreferences) (pi pj : Product) : Bool :=
  if prefs.sortBy = "cheapest" then
    decide (parseComparePriceToFloat pi.comparePrice < parseComparePriceToFloat pj.comparePrice)
  else if prefs.sortBy = "best_value" then
    decide (calculateValueScore pj < calculateValueScore pi)
  else if prefs.sortBy = "highest_quality" then
    if pi.labels.length ≠ pj.labels.length then
      decide (pj.labels.length < pi.labels.length)
    else
      decide (parseComparePriceToFloat pi.comparePrice < parseComparePriceToFloat pj.comparePrice)
  else
    false

/-- Go `sortProducts` from the search code.  Go `sort.Slice` guarantees exactly
that its output is a permutation of the input that is ordered with respect
to the supplied strict comparison; we realize that contract with
`List.mergeSort` over the complementary reflexive comparison
`le a b = ¬ sortLess prefs b a`. -/
def sortProducts (products : List Product) (prefs : SearchPreferences) : List Product :=
  products.mergeSort (fun a b => ! sortLess prefs b a)

/-- The closed error taxonomy of `errors.go`.  Error causes wrapped from
lower layers are collapsed to a Bool flag (`hasCause`); errors produced by
plain `fmt.Errorf` wrapping (no taxonomy type) are the `generic` variant. -/
inductive WError where
  | validation (field message : String)
  | authentication (message : String) (hasCause : Bool)
  | api (statusCode : Int) (endpoint message : String)
  | notFound (resource id : String)
  | generic (message : String)
deriving Repr, DecidableEq

/-- Endpoint path constants from `interfaces.go` (the ones the modelled
operations mention). -/
def EndpointSearch : String := "/search"

def EndpointLogin : String := "/login"

def EndpointSlotInCart : String := "/axfood/rest/slot/slotInCart"

def EndpointSlotHomeDelivery : String := "/axfood/rest/slot/homeDelivery"

/-- Observable outcome of the single (non-CSRF) search HTTP round-trip:
`none` is a transport error; otherwise a status code together with the
decoded result list (`none` when the body cannot be read or parsed). -/
def SearchNet : Type := Option (Int × Option (List Product))

/-- Result of a `SearchProducts` call together with the number of network
requests the call issued. -/
structure SearchOut where
  result : Except WError (List Product)
  requests : ℕ
deriving Repr

/-- Go `SearchProducts` from the search code: validate query, page and size
(failing before any network traffic), issue the search request, and pipe
the decoded results through `filterProducts` and `sortProducts` exactly
when preferences were supplied.  In Go the endpoint string carried by API
errors also contains the URL-encoded query parameters; it is abbreviated
here to the base search path. -/
def SearchProducts (query : String) (page size : Int)
    (prefs : Option SearchPreferences) (net : SearchNet) : SearchOut :=
  if query = "" then
    ⟨.error (.validation "query" "search query cannot be empty"), 0⟩
  else if page < 0 then
    ⟨.error (.validation "page" "page number cannot be negative"), 0⟩
  else if size ≤ 0 ∨ 100 < size then
    ⟨.error (.validation "size" "page size must be between 1 and 100"), 0⟩
  else
    match net with
    | none => ⟨.error (.api 0 EndpointSearch "search request failed"), 1⟩
    | some (status, body) =>
      if status ≠ 200 then
        ⟨.error (.api status EndpointSearch "search failed"), 1⟩
      else
        match body with
        | none => ⟨.error (.api status EndpointSearch "failed to parse search results"), 1⟩
        | some results =>
          match prefs with
          | none => ⟨.ok results, 1⟩
          | some p => ⟨.ok (sortProducts (filterProducts results p) p), 1⟩

/-- Shape of a decoded Go `any` JSON value (`float64`, `string`, `bool`,
`nil`, `[]any`, `map[string]any`); object fields are an association list
(Go object keys are unique after decoding). -/
inductive JsonValue where
  | num (v : ℚ)
  | str (s : String)
  | boolean (b : Bool)
  | null
  | arr (elems : List JsonValue)
  | obj (fields : List (String × JsonValue))
deriving Repr

mutual

/-- Go `parsePrice` from `cart.go`: a bare number is its value; a bare string is
parsed as a float (empty or unparseable gives `0`); an object recurses on
its `value` field when present (`0` when absent); everything else is `0`. -/
def parsePrice : JsonValue → ℚ
  | .num v => v
  | .str s =>
    if s = "" then 0
    else
      match goParseFloat s with
      | some price => price
      | none => 0
  | .obj fields => parsePriceValueField fields
  | .boolean _ => 0
  | .null => 0
  | .arr _ => 0

/-- Lookup of the `value` key inside `parsePrice`'s object case (Go map
access `val["value"]`, keys being unique after JSON decoding). -/
def parsePriceValueField : List (String × JsonValue) → ℚ
  | [] => 0
  | (key, v) :: rest => if key = "value" then parsePrice v else parsePriceValueField rest

end

/-- The nested `tmsDeliveryWindowReference` object of a decoded slot from the
slots-listing endpoint. -/
structure TmsDeliveryWindowReference where
  earliestDateTime : Int
  latestDateTime : Int
  routeID : Int
  resourceKey : String
  scheduleKey : String
  precedingStopId : Int
  stopNumber : Int
  profitability : ℚ
deriving Repr, DecidableEq

/-- One decoded entry of the slots-listing response (the anonymous `Slots`
element in `GetAvailableTimeSlots`; the delivery cost object collapsed to
its `value`). -/
structure RawSlot where
  code : String
  startTime : Int
  endTime : Int
  formattedTime : String
  deliveryCostValue : ℚ
  available : Bool
  tmsDeliveryWindowReference : TmsDeliveryWindowReference
deriving Repr, DecidableEq

/-- Go `TimeSlot` from the delivery code. -/
structure TimeSlot where
  slotID : String
  date : String
  startTime : String
  endTime : String
  fee : ℚ
  available : Bool
  earliestDateTime : Int
  latestDateTime : Int
  routeID : Int
  resourceKey : String
  scheduleKey : String
  precedingStopId : Int
  stopNumber : Int
  profitability : ℚ
deriving Repr, DecidableEq

/-- The per-entry conversion loop of `GetAvailableTimeSlots` (lines building
a `TimeSlot` from a decoded slot).  Go renders the date and clock strings
with `time.Unix(ms/1000, 0).Format(...)`, which depends on the process
local time zone; that environment-dependent rendering is passed in as the
functions `fmtDate` and `fmtTime` on Unix seconds. -/
def convertSlot (fmtDate fmtTime : Int → String) (s : RawSlot) : TimeSlot :=
  { slotID := s.code
    date := fmtDate (s.startTime / 1000)
    startTime := fmtTime (s.startTime / 1000)
    endTime := fmtTime (s.endTime / 1000)
    fee := s.deliveryCostValue
    available := s.available
    earliestDateTime := s.tmsDeliveryWindowReference.earliestDateTime
    latestDateTime := s.tmsDeliveryWindowReference.latestDateTime
    routeID := s.tmsDeliveryWindowReference.routeID
    resourceKey := s.tmsDeliveryWindowReference.resourceKey
    scheduleKey := s.tmsDeliveryWindowReference.scheduleKey
    precedingStopId := s.tmsDeliveryWindowReference.precedingStopId
    stopNumber := s.tmsDeliveryWindowReference.stopNumber
    profitability := s.tmsDeliveryWindowReference.profitability }

/-- Model of Go's `^\d{5}$|^\d{3}\s?\d{2}$` postal-code pattern. -/
def postalCodeMatch (s : String) : Bool :=
  match s.data with
  | [a, b, c, d, e] =>
    a.isDigit && b.isDigit && c.isDigit && d.isDigit && e.isDigit
  | [a, b, c, sp, d, e] =>
    a.isDigit && b.isDigit && c.isDigit && sp.isWhitespace && d.isDigit && e.isDigit
  | _ => false

/-- Go `ValidatePostalCode` from the validation code (`none` means valid, as a
`nil` Go error). -/
def ValidatePostalCode (postalCode : String) : Option WError :=
  if postalCode = "" then
    some (.validation "postal_code" "cannot be empty")
  else if ! postalCodeMatch postalCode then
    some (.validation "postal_code" "invalid format (expected: 12345 or 123 45)")
  else
    none

/-- Observable outcome of the slots-listing HTTP round-trip: `none` is a
transport error, otherwise a status code with the decoded slot list
(`none` when the body cannot be parsed). -/
def SlotsNet : Type := Option (Int × Option (List RawSlot))

/-- Go `GetAvailableTimeSlots` from the delivery code: validate the postal code,
issue the listing request, and convert each decoded slot.  As for search,
the endpoint string carried by API errors is abbreviated to the base
path (Go appends the postal-code query parameters). -/
def GetAvailableTimeSlots (fmtDate fmtTime : Int → String) (postalCode : String)
    (net : SlotsNet) : Except WError (List TimeSlot) :=
  match ValidatePostalCode postalCode with
  | some e => .error e
  | none =>
    match net with
    | none => .error (.api 0 EndpointSlotHomeDelivery "get time slots request failed")
    | some (status, body) =>
      if status ≠ 200 then .error (.api status EndpointSlotHomeDelivery "get time slots failed")
      else
        match body with
        | none => .error (.api status EndpointSlotHomeDelivery "failed to parse time slots response")
        | some slots => .ok (slots.map (convertSlot fmtDate fmtTime))

/-- The request body built by `SelectTimeSlot` (the anonymous `reqData`
struct): the slot-selection endpoint receives exactly these fields. -/
structure SlotSelectionBody where
  earliestDateTime : Int
  latestDateTime : Int
  routeID : Int
  resourceKey : String
  scheduleKey : String
  precedingStopId : Int
  stopNumber : Int
  profitability : ℚ
deriving Repr, DecidableEq

/-- The body-construction step of `SelectTimeSlot`: each field is copied
from the given slot without modification. -/
def selectTimeSlotBody (slot : TimeSlot) : SlotSelectionBody :=
  { earliestDateTime := slot.earliestDateTime
    latestDateTime := slot.latestDateTime
    routeID := slot.routeID
    resourceKey := slot.resourceKey
    scheduleKey := slot.scheduleKey
    precedingStopId := slot.precedingStopId
    stopNumber := slot.stopNumber
    profitability := slot.profitability }

/-- Routing fields of a decoded slot-listing entry, packaged in the shape of
the slot-selection request body (used to state the round-trip property). -/
def echoedBody (t : TmsDeliveryWindowReference) : SlotSelectionBody :=
  { earliestDateTime := t.earliestDateTime
    latestDateTime := t.latestDateTime
    routeID := t.routeID
    resourceKey := t.resourceKey
    scheduleKey := t.scheduleKey
    precedingStopId := t.precedingStopId
    stopNumber := t.stopNumber
    profitability := t.profitability }

/-- Model of Go's `^([01]\d|2[0-3]):([0-5]\d)$` clock pattern from the
validation code: a zero-padded 24-hour `HH:MM` string. -/
def timeFormatMatch (s : String) : Bool :=
  match s.data with
  | [h1, h2, colon, m1, m2] =>
    colon = ':'
    && ((((h1 = '0') || (h1 = '1')) && h2.isDigit) || ((h1 = '2') && ('0' ≤ h2 && h2 ≤ '3')))
    && ('0' ≤ m1 && m1 ≤ '5') && m2.isDigit
  | _ => false

/-- Minute-of-day denoted by a matching `HH:MM` string; Go compares the two
clock values with `time.Parse("15:04", ...)` followed by `end.After(start)`,
which on same-day clock values is exactly the order of minutes. -/
def timeMinutes (s : String) : ℕ :=
  match s.data with
  | [h1, h2, _, m1, m2] => (digitVal h1 * 10 + digitVal h2) * 60 + digitVal m1 * 10 + digitVal m2
  | _ => 0

/-- Go `ValidateTimeSlot` from the validation code: split on `-`, trim both
halves, check each against the clock pattern, and require the end to be
strictly after the start. -/
def ValidateTimeSlot (timeSlot : String) : Except WError (String × String) :=
  if timeSlot = "" then
    .error (.validation "time_slot" "cannot be empty")
  else
    let parts := timeSlot.splitOn "-"
    if parts.length ≠ 2 then
      .error (.validation "time_slot" "invalid format (expected: HH:MM-HH:MM)")
    else
      let startTime := (parts.getD 0 "").trim
      let endTime := (parts.getD 1 "").trim
      if ! timeFormatMatch startTime then
        .error (.validation "time_slot" ("invalid start time: " ++ startTime))
      else if ! timeFormatMatch endTime then
        .error (.validation "time_slot" ("invalid end time: " ++ endTime))
      else if ! decide (timeMinutes startTime < timeMinutes endTime) then
        .error (.validation "time_slot" "end time must be after start time")
      else
        .ok (startTime, endTime)

/-- The mutable session fields of `Client` that the retry machinery reads
and writes: the cached anti-forgery token (empty string meaning absent),
the stored credentials, and the failed-reauthentication counter. -/
structure ClientState where
  csrfToken : String
  username : String
  password : String
  authAttempts : Int
deriving Repr, DecidableEq

/-- Go `MaxAuthRetryAttempts` from the client code. -/
def MaxAuthRetryAttempts : Int := 2

/-- Observable outcomes of the network calls `Login` can make:
whether `InitializeSession` came back OK (status 200 with no transport
error), the status of the login POST (`none` is a transport error), and
the token string of the post-login `FetchCSRFToken` (`none` is a failed
fetch). -/
structure LoginEnv where
  initOk : Bool
  loginSend : Option Int
  tokenFetch : Option String
deriving Repr, DecidableEq

/-- Observable outcomes of the network calls one `DoRequest` invocation can
make: the lazy token fetch of the initial `GetCSRFToken` (used only when
no token is cached), the forced `FetchCSRFToken` refresh after a first
unauthorized response, the three possible request sends (`none` is a
transport error, otherwise a status code), and the `Login` outcomes. -/
structure DoRequestEnv where
  fetch0 : Option String
  send1 : Option Int
  refreshFetch : Option String
  send2 : Option Int
  login : LoginEnv
  send3 : Option Int
deriving Repr, DecidableEq

/-- An HTTP response as far as the retry machinery observes it. -/
structure HttpResponse where
  status : Int
deriving Repr, DecidableEq

/-- Go `fetchCSRFTokenLocked` from the client code: a failed fetch or an empty
token is an error and leaves the cache untouched; a non-empty token is
stored in the cache and returned. -/
def fetchCSRFToken (st : ClientState) (r : Option String) :
    ClientState × Except WError String :=
  match r with
  | none => (st, .error (.generic "failed to fetch CSRF token"))
  | some token =>
    if token = "" then (st, .error (.generic "empty CSRF token"))
    else ({ st with csrfToken := token }, .ok token)

/-- Go `GetCSRFToken` from the client code: return the cached token when
present, otherwise fetch and cache one. -/
def GetCSRFToken (st : ClientState) (r : Option String) :
    ClientState × Except WError String :=
  if st.csrfToken ≠ "" then (st, .ok st.csrfToken)
  else fetchCSRFToken st r

/-- Go `Login` from `auth.go` (the direct-HTTP re-login path): validate the
credentials, initialize the session, POST the credentials, and on a 2xx
response store the credentials, reset the failed-reauthentication counter
to zero, and fetch a fresh token (whose failure fails the whole call,
after the counter was already reset — the Go code stores zero before the
final fetch). -/
def Login (st : ClientState) (username password : String) (env : LoginEnv) :
    ClientState × Except WError Unit :=
  if username = "" then
    (st, .error (.validation "username" "username cannot be empty"))
  else if password = "" then
    (st, .error (.validation "password" "password cannot be empty"))
  else if password.utf8ByteSize < 6 then
    (st, .error (.validation "password" "password must be at least 6 characters"))
  else if ! env.initOk then
    (st, .error (.authentication "failed to initialize session" true))
  else
    match env.loginSend with
    | none => (st, .error (.authentication "login request failed" true))
    | some status =>
      if status = 401 ∨ status = 403 then
        (st, .error (.authentication "invalid username or password" false))
      else if status ≠ 200 ∧ status ≠ 201 then
        (st, .error (.api status EndpointLogin "login failed"))
      else
        let st1 := { st with username := username, password := password, authAttempts := 0 }
        match fetchCSRFToken st1 env.tokenFetch with
        | (st2, .error _) =>
          (st2, .error (.authentication "failed to fetch CSRF token after login" true))
        | (st2, .ok _) => (st2, .ok ())

/-- Result of one `DoRequest` call: the final session state, the value
returned to the caller, and how many `Login` calls and HTTP sends the
call performed. -/
structure DoReqOut where
  state : ClientState
  result : Except WError HttpResponse
  loginCalls : ℕ
  httpSends : ℕ
deriving Repr

/-- Go `DoRequest` from the client code, for a non-cancelled context: attach a
token when `needsCSRF`, send; on an unauthorized response (with
`needsCSRF`) force-refresh the token and resend once; if that is also
unauthorized and credentials are held and the counter is below
`MaxAuthRetryAttempts`, increment the counter, do one full `Login`, and
resend a third and final time; if instead the counter has reached the
maximum, fail with an authentication error; any other response is
returned as is. -/
def DoRequest (st0 : ClientState) (needsCSRF : Bool) (env : DoRequestEnv) : DoReqOut :=
  let step1 :=
    if needsCSRF then GetCSRFToken st0 env.fetch0
    else (st0, .ok "")
  match step1 with
  | (st, .error _) => ⟨st, .error (.generic "failed to get CSRF token"), 0, 0⟩
  | (st, .ok _) =>
    match env.send1 with
    | none => ⟨st, .error (.generic "request failed"), 0, 1⟩
    | some s1 =>
      if s1 = 401 ∧ needsCSRF then
        match fetchCSRFToken st env.refreshFetch with
        | (st, .error _) => ⟨st, .error (.generic "failed to refresh CSRF token"), 0, 1⟩
        | (st, .ok _) =>
          match GetCSRFToken st env.refreshFetch with
          | (st, .error _) => ⟨st, .error (.generic "failed to get updated CSRF token"), 0, 1⟩
          | (st, .ok _) =>
            match env.send2 with
            | none => ⟨st, .error (.generic "retry request failed"), 0, 2⟩
            | some s2 =>
              let attempts := st.authAttempts
              let username := st.username
              let password := st.password
              if s2 = 401 ∧ username ≠ "" ∧ password ≠ "" ∧ attempts < MaxAuthRetryAttempts then
                let st := { st with authAttempts := st.authAttempts + 1 }
                match Login st username password env.login with
                | (st, .error _) =>
                  ⟨st, .error (.authentication "failed to re-authenticate" true), 1, 2⟩
                | (st, .ok _) =>
                  match GetCSRFToken st env.refreshFetch with
                  | (st, .error _) =>
                    ⟨st, .error (.generic "failed to get CSRF token after re-auth"), 1, 2⟩
                  | (st, .ok _) =>
                    match env.send3 with
                    | none => ⟨st, .error (.generic "final retry request failed"), 1, 3⟩
                    | some s3 => ⟨st, .ok ⟨s3⟩, 1, 3⟩
              else if s2 = 401 ∧ MaxAuthRetryAttempts ≤ attempts then
                ⟨st, .error (.authentication "maximum authentication retry attempts exceeded" false), 0, 2⟩
              else
                ⟨st, .ok ⟨s2⟩, 0, 2⟩
      else
        ⟨st, .ok ⟨s1⟩, 0, 1⟩

/-- Whether `Login` gets past the credential exchange: the inputs validate,
the session initializes, and the login POST comes back with a 2xx status.
Exactly then the Go code stores the credentials and resets the
failed-reauthentication counter to zero (a failure of the subsequent
token fetch no longer undoes the reset). -/
def loginExchangeOk (username password : String) (env : LoginEnv) : Bool :=
  ! decide (username = "")
  && ! decide (password = "")
  && decide (6 ≤ password.utf8ByteSize)
  && env.initOk
  && (match env.loginSend with
      | none => false
      | some status =>
        ! decide (status = 401 ∨ status = 403) && decide (status = 200 ∨ status = 201))

/-- The value-score formula of the spec as the frozen claim reads it: at
most one 10-point quality bonus per product, no matter how many labels
match. -/
def claimedValueScore (p : Product) : ℚ :=
  let comparePrice := parseComparePriceToFloat p.comparePrice
  (if 0 < comparePrice then 100 / comparePrice else 0)
    + (if p.labels.any matchesQualityLabel then 10 else 0)
    + (match p.savingsAmount with
       | some s => if 0 < s then s * (1 / 2) else 0
       | none => 0)

/-- The value-score formula with the per-label quality bonus the code
actually awards: 10 points for every product label containing some
recognized quality label (one bonus per label, not per product). -/
def amendedValueScore (p : Product) : ℚ :=
  let comparePrice := parseComparePriceToFloat p.comparePrice
  (if 0 < comparePrice then 100 / comparePrice else 0)
    + 10 * (p.labels.countP matchesQualityLabel : ℚ)
    + (match p.savingsAmount with
       | some s => if 0 < s then s * (1 / 2) else 0
       | none => 0)

/-- Fixture builder: a product varying only in the fields the ranking engine
reads (compare price, labels, savings amount), the compare price doubling
as the product code. -/
def mkProduct (cp : String) (labels : List String) (savings : Option ℚ) : Product :=
  { code := cp
    name := ""
    priceValue := 0
    price := ""
    comparePrice := cp
    comparePriceUnit := ""
    displayVolume := ""
    manufacturer := ""
    labels := labels
    online := true
    outOfStock := false
    savingsAmount := savings
    imageURL := "" }

/-- Fixture: product with a 30 kr compare price. -/
def p30 : Product := mkProduct "30,00 kr" [] none

/-- Fixture: product with a 10 kr compare price. -/
def p10 : Product := mkProduct "10,00 kr" [] none

/-- Fixture: product with a 20 kr compare price. -/
def p20 : Product := mkProduct "20,00 kr" [] none

/-- Fixture: product carrying two distinct quality labels and no parseable
compare price. -/
def pTwoQuality : Product := mkProduct "" ["krav", "svensk"] none

/-- Fixture: product whose compare-price string does not parse. -/
def pUnparseable : Product := mkProduct "banana" [] none

/-- Fixture: preferences selecting the `cheapest` sort mode. -/
def prefsCheapest : SearchPreferences :=
  { priceSensitivity := "", maxPricePerUnit := 0, requiredLabels := [], preferredLabels := [], sortBy := "cheapest" }

/-- Fixture: preferences selecting the `best_value` sort mode. -/
def prefsBestValue : SearchPreferences :=
  { priceSensitivity := "", maxPricePerUnit := 0, requiredLabels := [], preferredLabels := [], sortBy := "best_value" }

/-- Fixture: preferences with a price ceiling of 50 and a required label. -/
def prefsReqLabel : SearchPreferences :=
  { priceSensitivity := "", maxPricePerUnit := 50, requiredLabels := ["krav"], preferredLabels := [], sortBy := "" }

/-- Fixture: preferences with a price ceiling of 50 and no required labels. -/
def prefsCeiling : SearchPreferences :=
  { priceSensitivity := "", maxPricePerUnit := 50, requiredLabels := [], preferredLabels := [], sortBy := "" }

/-- Fixture: a session state holding a cached token, credentials and a zero
failed-reauthentication counter. -/
def stFresh : ClientState := { csrfToken := "tok", username := "user", password := "secret123", authAttempts := 0 }

/-- Fixture: a session state whose failed-reauthentication counter has
already reached the maximum. -/
def stExhausted : ClientState := { csrfToken := "tok", username := "user", password := "secret123", authAttempts := 2 }

/-- Fixture: a network environment answering unauthorized to all three sends
while the token refresh and the full re-login both succeed. -/
def envAll401 : DoRequestEnv :=
  { fetch0 := none
    send1 := some 401
    refreshFetch := some "tok2"
    send2 := some 401
    login := { initOk := true, loginSend := some 200, tokenFetch := some "tok3" }
    send3 := some 401 }

/-- Fixture: a raw slot-listing entry with concrete routing fields. -/
def rawSlotA : RawSlot :=
  { code := "slot-1"
    startTime := 1700000000000
    endTime := 1700007200000
    formattedTime := ""
    deliveryCostValue := 49
    available := true
    tmsDeliveryWindowReference :=
      { earliestDateTime := 1699999000000
        latestDateTime := 1700008000000
        routeID := 7
        resourceKey := "res-key"
        scheduleKey := "sched-key"
        precedingStopId := 3
        stopNumber := 12
        profitability := 5 / 4 } }

/-- A pairwise relation holds of any list when it holds of any two
elements. -/
theorem pairwise_of_forall {α : Type} (R : α → α → Prop) (h : ∀ a b, R a b) :
    ∀ l : List α, List.Pairwise R l := by
  intro l
  induction l with
  | nil => exact List.Pairwise.nil
  | cons x xs ih => exact List.Pairwise.cons (fun b _ => h x b) ih

/-- The object case of `parsePrice` is lookup of the `value` key. -/
theorem parsePriceValueField_eq_lookup (fields : List (String × JsonValue)) :
    parsePriceValueField fields =
      (match fields.lookup "value" with
       | some v => parsePrice v
       | none => 0) := by
  induction fields with
  | nil => rfl
  | cons kv rest ih =>
    obtain ⟨k, v⟩ := kv
    by_cases h : k = "value"
    · simp [parsePriceValueField, List.lookup, h, ih, beq_iff_eq]
    · have h2 : ("value" == k) = false := by
        simp [beq_iff_eq]
        exact fun e => h e.symm
      simp [parsePriceValueField, List.lookup, h, h2, ih]

/-- Claim C9: `ValidateTimeSlot "15:00-17:00"` succeeds with the pair
`("15:00", "17:00")`; `ValidateTimeSlot "17:00-15:00"` fails because the
end is not after the start; `ValidateTimeSlot "9:00-10:00"` fails because
the clock pattern rejects the non-zero-padded hour. -/
theorem claim9_validateTimeSlot :
    ValidateTimeSlot "15:00-17:00" = .ok ("15:00", "17:00") ∧
    ValidateTimeSlot "17:00-15:00" = .error (.validation "time_slot" "end time must be after start time") ∧
    ValidateTimeSlot "9:00-10:00" = .error (.validation "time_slot" "invalid start time: 9:00") := by
  refine ⟨?_, ?_, ?_⟩ <;> with_unfolding_all rfl

/-- Claim C6: a slot read from the slots-listing response and then passed to
slot selection has its opaque routing fields (earliest/latest timestamp,
route id, resource key, schedule key, preceding stop id, stop number,
profitability) placed in the slot-selection request body exactly as they
were decoded, unmodified. -/
theorem claim6_slotRoundTrip :
    (∀ (fmtDate fmtTime : Int → String) (s : RawSlot),
      selectTimeSlotBody (convertSlot fmtDate fmtTime s) = echoedBody s.tmsDeliveryWindowReference) ∧
    (∀ (fmtDate fmtTime : Int → String) (postalCode : String) (raws : List RawSlot),
      ValidatePostalCode postalCode = none →
      GetAvailableTimeSlots fmtDate fmtTime postalCode (some (200, some raws))
          = .ok (raws.map (convertSlot fmtDate fmtTime)) ∧
      (raws.map (convertSlot fmtDate fmtTime)).map selectTimeSlotBody
          = raws.map (fun s => echoedBody s.tmsDeliveryWindowReference)) := by
  refine ⟨fun _ _ _ => rfl, fun fmtDate fmtTime postalCode raws h => ⟨?_, ?_⟩⟩
  · simp [GetAvailableTimeSlots, h]
  · simp [List.map_map]
    intro a _
    rfl

/-- Witness for claim C6 at a concrete slot list and postal code. -/
theorem claim6_slotRoundTrip_witness :
    GetAvailableTimeSlots (fun _ => "2023-11-14") (fun _ => "00:00") "11151"
        (some (200, some [rawSlotA]))
      = .ok ([rawSlotA].map (convertSlot (fun _ => "2023-11-14") (fun _ => "00:00"))) ∧
    ([rawSlotA].map (convertSlot (fun _ => "2023-11-14") (fun _ => "00:00"))).map selectTimeSlotBody
      = [rawSlotA].map (fun s => echoedBody s.tmsDeliveryWindowReference) :=
  claim6_slotRoundTrip.2 (fun _ => "2023-11-14") (fun _ => "00:00") "11151" [rawSlotA]
    (by with_unfolding_all rfl)

/-- Claim C7: the cart price coercion accepts a bare number, a bare string
and an object carrying a `value` field, and yields the corresponding
numeric value; a missing, empty, unparseable or otherwise-shaped input
yields 0. -/
theorem claim7_parsePrice :
    (∀ q : ℚ, parsePrice (.num q) = q) ∧
    (parsePrice (.str "") = 0) ∧
    (∀ (s : String) (q : ℚ), s ≠ "" → goParseFloat s = some q → parsePrice (.str s) = q) ∧
    (∀ s : String, goParseFloat s = none → parsePrice (.str s) = 0) ∧
    (∀ (fields : List (String × JsonValue)) (v : JsonValue),
      fields.lookup "value" = some v → parsePrice (.obj fields) = parsePrice v) ∧
    (∀ fields : List (String × JsonValue),
      fields.lookup "value" = none → parsePrice (.obj fields) = 0) ∧
    (parsePrice .null = 0) ∧
    (∀ b, parsePrice (.boolean b) = 0) ∧
    (∀ elems, parsePrice (.arr elems) = 0) := by
  refine ⟨fun _ => rfl, rfl, ?_, ?_, ?_, ?_, rfl, fun _ => rfl, fun _ => rfl⟩
  · intro s q hs hq
    simp [parsePrice, hs, hq]
  · intro s h
    by_cases hs : s = "" <;> simp [parsePrice, hs, h]
  · intro fields v h
    simp [parsePrice, parsePriceValueField_eq_lookup, h]
  · intro fields h
    simp [parsePrice, parsePriceValueField_eq_lookup, h]

/-- Witness for claim C7 at concrete inputs of each accepted and each
rejected shape. -/
theorem claim7_parsePrice_witness :
    parsePrice (.num (25 / 2)) = 25 / 2 ∧
    parsePrice (.str "12.5") = 25 / 2 ∧
    parsePrice (.str "abc") = 0 ∧
    parsePrice (.obj [("value", .num 3)]) = parsePrice (.num 3) ∧
    parsePrice (.obj [("other", .num 3)]) = 0 :=
  ⟨claim7_parsePrice.1 (25 / 2),
   claim7_parsePrice.2.2.1 "12.5" (25 / 2) (by decide) (by with_unfolding_all rfl),
   claim7_parsePrice.2.2.2.1 "abc" (by with_unfolding_all rfl),
   claim7_parsePrice.2.2.2.2.1 [("value", .num 3)] (.num 3) (by with_unfolding_all rfl),
   claim7_parsePrice.2.2.2.2.2.1 [("other", .num 3)] (by with_unfolding_all rfl)⟩

/-- Claim C10: an empty query, a negative page, or a size outside `[1, 100]`
makes `SearchProducts` fail with a `ValidationError` naming the offending
field, before any network request is issued. -/
theorem claim10_searchValidation (query : String) (page size : Int)
    (prefs : Option SearchPreferences) (net : SearchNet) :
    (query = "" →
      SearchProducts query page size prefs net
        = ⟨.error (.validation "query" "search query cannot be empty"), 0⟩) ∧
    (query ≠ "" → page < 0 →
      SearchProducts query page size prefs net
        = ⟨.error (.validation "page" "page number cannot be negative"), 0⟩) ∧
    (query ≠ "" → ¬ page < 0 → (size ≤ 0 ∨ 100 < size) →
      SearchProducts query page size prefs net
        = ⟨.error (.validation "size" "page size must be between 1 and 100"), 0⟩) := by
  refine ⟨?_, ?_, ?_⟩
  · intro h
    simp [SearchProducts, h]
  · intro h1 h2
    simp [SearchProducts, h1, h2]
  · intro h1 h2 h3
    simp [SearchProducts, h1, h2, h3]

/-- Witness for claim C10 at one concrete input per offending field. -/
theorem claim10_searchValidation_witness :
    SearchProducts "" 0 10 none none
      = ⟨.error (.validation "query" "search query cannot be empty"), 0⟩ ∧
    SearchProducts "mjölk" (-1) 10 none none
      = ⟨.error (.validation "page" "page number cannot be negative"), 0⟩ ∧
    SearchProducts "mjölk" 0 101 none none
      = ⟨.error (.validation "size" "page size must be between 1 and 100"), 0⟩ :=
  ⟨(claim10_searchValidation "" 0 10 none none).1 rfl,
   (claim10_searchValidation "mjölk" (-1) 10 none none).2.1 (by decide) (by decide),
   (claim10_searchValidation "mjölk" 0 101 none none).2.2 (by decide) (by decide) (by decide)⟩

/-- With none of the three recognized sort modes selected, the comparison
closure never orders any pair. -/
theorem sortLess_default (prefs : SearchPreferences)
    (h1 : prefs.sortBy ≠ "cheapest") (h2 : prefs.sortBy ≠ "best_value")
    (h3 : prefs.sortBy ≠ "highest_quality") (a b : Product) :
    sortLess prefs a b = false := by
  simp [sortLess, h1, h2, h3]

/-- With none of the three recognized sort modes selected, sorting is the
identity. -/
theorem sortProducts_default (prefs : SearchPreferences)
    (h1 : prefs.sortBy ≠ "cheapest") (h2 : prefs.sortBy ≠ "best_value")
    (h3 : prefs.sortBy ≠ "highest_quality") (products : List Product) :
    sortProducts products prefs = products := by
  unfold sortProducts
  apply List.mergeSort_of_sorted
  apply pairwise_of_forall
  intro a b
  simp [sortLess_default prefs h1 h2 h3]

/-- Claim C4: `SearchProducts` without preferences returns the decoded
results untouched, and the sort stage with an unset or unrecognized mode
reorders nothing. -/
theorem claim4_passThrough :
    (∀ (query : String) (page size : Int) (results : List Product),
      query ≠ "" → ¬ page < 0 → ¬ (size ≤ 0 ∨ 100 < size) →
      (SearchProducts query page size none (some (200, some results))).result = .ok results) ∧
    (∀ (prefs : SearchPreferences) (products : List Product),
      prefs.sortBy ≠ "cheapest" → prefs.sortBy ≠ "best_value" → prefs.sortBy ≠ "highest_quality" →
      sortProducts products prefs = products) := by
  constructor
  · intro query page size results h1 h2 h3
    simp [SearchProducts, h1, h2, h3]
  · exact fun prefs products h1 h2 h3 => sortProducts_default prefs h1 h2 h3 products

/-- Witness for claim C4 at a concrete result list and at concrete
preferences with an unset sort mode. -/
theorem claim4_passThrough_witness :
    (SearchProducts "mjölk" 0 10 none (some (200, some [p30, p10]))).result = .ok [p30, p10] ∧
    sortProducts [p30, p10] prefsCeiling = [p30, p10] :=
  ⟨claim4_passThrough.1 "mjölk" 0 10 [p30, p10] (by decide) (by decide) (by decide),
   claim4_passThrough.2 prefsCeiling [p30, p10] (by decide) (by decide) (by decide)⟩

/-- Claim C3 as amended: when a price ceiling is set and no required labels
are given, the filter stage keeps exactly the products whose stripped and
comma-normalized compare price parses to at most the ceiling; an
unparseable compare price parses to 0 and such products are always
retained. -/
theorem claim3_priceFilter :
    (∀ (products : List Product) (prefs : SearchPreferences),
      0 < prefs.maxPricePerUnit → prefs.requiredLabels = [] →
      filterProducts products prefs
        = products.filter
            (fun p => decide (parseComparePriceToFloat p.comparePrice ≤ prefs.maxPricePerUnit))) ∧
    (∀ priceStr : String,
      goParseFloat (replaceCommas (priceStr.stripSuffix " kr")) = none →
      parseComparePriceToFloat priceStr = 0) ∧
    (∀ (products : List Product) (prefs : SearchPreferences) (p : Product),
      0 < prefs.maxPricePerUnit → prefs.requiredLabels = [] → p ∈ products →
      goParseFloat (replaceCommas (p.comparePrice.stripSuffix " kr")) = none →
      p ∈ filterProducts products prefs) := by
  have hparse : ∀ priceStr : String,
      goParseFloat (replaceCommas (priceStr.stripSuffix " kr")) = none →
      parseComparePriceToFloat priceStr = 0 := by
    intro priceStr h
    simp [parseComparePriceToFloat, h]
  have hfilter : ∀ (products : List Product) (prefs : SearchPreferences),
      0 < prefs.maxPricePerUnit → prefs.requiredLabels = [] →
      filterProducts products prefs
        = products.filter
            (fun p => decide (parseComparePriceToFloat p.comparePrice ≤ prefs.maxPricePerUnit)) := by
    intro products prefs hmax hreq
    simp [filterProducts, hreq, hmax]
  refine ⟨hfilter, hparse, ?_⟩
  intro products prefs p hmax hreq hmem hbad
  rw [hfilter products prefs hmax hreq]
  refine List.mem_filter.mpr ⟨hmem, ?_⟩
  rw [hparse p.comparePrice hbad]
  exact decide_eq_true (le_of_lt hmax)

/-- Witness for claim C3 (amended) at a concrete list containing one product
with an unparseable compare price. -/
theorem claim3_priceFilter_witness :
    pUnparseable ∈ filterProducts [pUnparseable] prefsCeiling :=
  claim3_priceFilter.2.2 [pUnparseable] prefsCeiling pUnparseable
    (by with_unfolding_all decide) rfl (List.mem_singleton.mpr rfl)
    (by with_unfolding_all rfl)

/-- Counterexample to claim C3 as frozen: with a price ceiling of 50 and a
required label, a product whose compare price is unparseable (parsed
value 0, below the ceiling) is nevertheless dropped by the filter stage,
so the filter does not drop exactly the products above the ceiling and an
unparseable price is not always retained. -/
theorem claim3_counterexample :
    0 < prefsReqLabel.maxPricePerUnit ∧
    parseComparePriceToFloat pUnparseable.comparePrice ≤ prefsReqLabel.maxPricePerUnit ∧
    filterProducts [pUnparseable] prefsReqLabel = [] := by
  refine ⟨?_, ?_, ?_⟩ <;> with_unfolding_all decide

/-- Merge-sorting with the complement of a strict rational-key comparison
yields a list that is pairwise ordered by that key. -/
theorem mergeSort_key_sorted (k : Product → ℚ) (le : Product → Product → Bool)
    (hle : ∀ a b, le a b = ! decide (k b < k a)) (l : List Product) :
    List.Pairwise (fun a b => k a ≤ k b) (l.mergeSort le) := by
  have h := @List.sorted_mergeSort _ le ?_ ?_ l
  · refine h.imp ?_
    intro a b hab
    rw [hle] at hab
    simpa using hab
  · intro a b c hab hbc
    rw [hle] at hab hbc ⊢
    simp only [Bool.not_eq_true', decide_eq_false_iff_not, not_lt] at hab hbc ⊢
    exact le_trans hab hbc
  · intro a b
    rw [hle, hle]
    rcases le_total (k a) (k b) with h | h
    · simp [not_lt.mpr h]
    · have : ¬ k a < k b := not_lt.mpr h
      simp [this]

/-- The label loop of `calculateValueScore` adds ten points per matching
label: folding the per-label bonus equals ten times the count of matching
labels. -/
theorem foldl_labelQualityBonus (labels : List String) (base : ℚ) :
    labels.foldl (fun score label => score + labelQualityBonus label) base
      = base + 10 * (labels.countP matchesQualityLabel : ℚ) := by
  induction labels generalizing base with
  | nil => simp
  | cons l ls ih =>
    rw [List.foldl_cons, ih, List.countP_cons]
    by_cases h : matchesQualityLabel l
    · simp only [labelQualityBonus, h, if_true]
      push_cast
      ring
    · simp [labelQualityBonus, h]

/-- The code's value score computes the per-label formula. -/
theorem calculateValueScore_eq_amended (p : Product) :
    calculateValueScore p = amendedValueScore p := by
  simp only [calculateValueScore, amendedValueScore]
  rw [foldl_labelQualityBonus]
  cases hs : p.savingsAmount with
  | none => ring
  | some s =>
    by_cases h : 0 < s
    · simp [h]
    · simp [h]

/-- Claim C5: sorting with mode `cheapest` permutes the products into
ascending order of parsed compare price; on compare prices of 30, 10 and
20 kr the output is the 10, 20, 30 order. -/
theorem claim5_cheapest :
    (∀ (products : List Product) (prefs : SearchPreferences), prefs.sortBy = "cheapest" →
      (sortProducts products prefs).Perm products ∧
      List.Pairwise
        (fun a b => parseComparePriceToFloat a.comparePrice ≤ parseComparePriceToFloat b.comparePrice)
        (sortProducts products prefs)) ∧
    sortProducts [p30, p10, p20] prefsCheapest = [p10, p20, p30] := by
  constructor
  · intro products prefs h
    refine ⟨List.mergeSort_perm products _, ?_⟩
    apply mergeSort_key_sorted (fun p => parseComparePriceToFloat p.comparePrice)
    intro a b
    simp [sortLess, h]
  · with_unfolding_all decide

/-- Witness for claim C5 at a concrete three-product list. -/
theorem claim5_cheapest_witness :
    (sortProducts [p30, p10, p20] prefsCheapest).Perm [p30, p10, p20] ∧
    List.Pairwise
      (fun a b => parseComparePriceToFloat a.comparePrice ≤ parseComparePriceToFloat b.comparePrice)
      (sortProducts [p30, p10, p20] prefsCheapest) :=
  claim5_cheapest.1 [p30, p10, p20] prefsCheapest rfl

/-- Claim C2 as amended: the `best_value` comparison score is
`100 / unit price` (0 when the parsed price is not positive) plus a
10-point bonus for EVERY product label matching the fixed quality-label
set (at most one bonus per label — the short-circuit is over the quality
set, not over the product's labels) plus half of a positive savings
amount; `best_value` sorting orders products descending by this score. -/
theorem claim2_valueScore :
    (∀ p : Product, calculateValueScore p = amendedValueScore p) ∧
    (∀ (products : List Product) (prefs : SearchPreferences), prefs.sortBy = "best_value" →
      (sortProducts products prefs).Perm products ∧
      List.Pairwise (fun a b => calculateValueScore b ≤ calculateValueScore a)
        (sortProducts products prefs)) := by
  refine ⟨calculateValueScore_eq_amended, ?_⟩
  intro products prefs h
  refine ⟨List.mergeSort_perm products _, ?_⟩
  have hp := mergeSort_key_sorted (fun p => - calculateValueScore p)
    (fun a b => ! sortLess prefs b a) ?_ products
  · refine hp.imp ?_
    intro a b hab
    simpa using hab
  · intro a b
    simp [sortLess, h]

/-- Witness for claim C2 (amended) at a concrete product and product list. -/
theorem claim2_valueScore_witness :
    (sortProducts [p10, pTwoQuality] prefsBestValue).Perm [p10, pTwoQuality] ∧
    List.Pairwise (fun a b => calculateValueScore b ≤ calculateValueScore a)
      (sortProducts [p10, pTwoQuality] prefsBestValue) :=
  claim2_valueScore.2 [p10, pTwoQuality] prefsBestValue rfl

/-- Counterexample to claim C2 as frozen: a product with two labels that
each match the quality set scores 20 label-bonus points in the code,
while the claimed formula (at most one 10-point bonus per product) gives
10; the two disagree. -/
theorem claim2_counterexample :
    calculateValueScore pTwoQuality = 20 ∧
    claimedValueScore pTwoQuality = 10 ∧
    calculateValueScore pTwoQuality ≠ claimedValueScore pTwoQuality := by
  refine ⟨?_, ?_, ?_⟩ <;> with_unfolding_all decide

/-- A token fetch never touches the failed-reauthentication counter. -/
theorem fetchCSRFToken_authAttempts (st : ClientState) (r : Option String) :
    (fetchCSRFToken st r).1.authAttempts = st.authAttempts := by
  unfold fetchCSRFToken
  cases r with
  | none => rfl
  | some t => by_cases h : t = "" <;> simp [h]

/-- Reading (and lazily fetching) the cached token never touches the
failed-reauthentication counter. -/
theorem GetCSRFToken_authAttempts (st : ClientState) (r : Option String) :
    (GetCSRFToken st r).1.authAttempts = st.authAttempts := by
  unfold GetCSRFToken
  by_cases h : st.csrfToken ≠ "" <;> simp [h, fetchCSRFToken_authAttempts]

/-- The counter after `Login`: zero exactly when the credential exchange
succeeded, the caller's value otherwise. -/
theorem Login_authAttempts (st : ClientState) (u p : String) (env : LoginEnv) :
    (Login st u p env).1.authAttempts = (if loginExchangeOk u p env then 0 else st.authAttempts) := by
  unfold Login loginExchangeOk
  by_cases h1 : u = ""
  · simp [h1]
  by_cases h2 : p = ""
  · simp [h1, h2]
  by_cases h3 : p.utf8ByteSize < 6
  · have h3' : ¬ 6 ≤ p.utf8ByteSize := not_le.mpr h3
    simp [h1, h2, h3, h3']
  have h3' : 6 ≤ p.utf8ByteSize := not_lt.mp h3
  cases hio : env.initOk with
  | false => simp [h1, h2, h3, h3', hio]
  | true =>
    cases hsend : env.loginSend with
    | none => simp [h1, h2, h3, h3', hio, hsend]
    | some status =>
      by_cases h4 : status = 401 ∨ status = 403
      · simp [h1, h2, h3, h3', hio, hsend, h4]
      by_cases h5 : status ≠ 200 ∧ status ≠ 201
      · have h5' : ¬ (status = 200 ∨ status = 201) := by tauto
        simp [h1, h2, h3, h3', hio, hsend, h4, h5, h5']
      have h5' : status = 200 ∨ status = 201 := by tauto
      have hfa := fetchCSRFToken_authAttempts
        { st with username := u, password := p, authAttempts := 0 } env.tokenFetch
      rcases hfe : fetchCSRFToken
        { st with username := u, password := p, authAttempts := 0 } env.tokenFetch with ⟨st2, r2⟩
      rw [hfe] at hfa
      simp only [] at hfa
      cases r2 <;>
        simp [h1, h2, h3, h3', hio, hsend, h4, h5, h5', hfe] <;>
        simpa using hfa

/-- The initial token step of `DoRequest` never touches the
failed-reauthentication counter. -/
theorem step1CSRF_authAttempts (st0 : ClientState) (needsCSRF : Bool) (r : Option String) :
    ((if needsCSRF then GetCSRFToken st0 r else (st0, Except.ok "")).1).authAttempts
      = st0.authAttempts := by
  cases needsCSRF <;> simp [GetCSRFToken_authAttempts]

/-- Branch facts of one `DoRequest` call: at most one `Login`, at most three
sends, and the counter either survives unchanged (no re-login attempted),
or one re-login was attempted and the counter is the caller's value plus
one (the re-login did not complete its credential exchange) or zero (it
did). -/
theorem DoRequest_authAttempts_cases (st0 : ClientState) (needsCSRF : Bool) (env : DoRequestEnv) :
    (DoRequest st0 needsCSRF env).loginCalls ≤ 1 ∧
    (DoRequest st0 needsCSRF env).httpSends ≤ 3 ∧
    ((DoRequest st0 needsCSRF env).loginCalls = 0 ∧
        (DoRequest st0 needsCSRF env).state.authAttempts = st0.authAttempts ∨
      (DoRequest st0 needsCSRF env).loginCalls = 1 ∧
        ((DoRequest st0 needsCSRF env).state.authAttempts = st0.authAttempts + 1 ∨
         (DoRequest st0 needsCSRF env).state.authAttempts = 0)) := by
  have hstep := step1CSRF_authAttempts st0 needsCSRF env.fetch0
  simp only [DoRequest]
  rcases h1 : (if needsCSRF then GetCSRFToken st0 env.fetch0 else (st0, Except.ok "")) with ⟨stA, rA⟩
  rw [h1] at hstep
  simp only [] at hstep
  cases rA with
  | error e => simp [hstep]
  | ok tok =>
    cases hs1 : env.send1 with
    | none => simp [hstep]
    | some s1 =>
      by_cases hc1 : s1 = 401 ∧ needsCSRF = true
      case neg => simp [hc1, hstep]
      case pos =>
        simp only [hc1, if_pos]
        have hB0 := fetchCSRFToken_authAttempts stA env.refreshFetch
        rcases hB : fetchCSRFToken stA env.refreshFetch with ⟨stB, rB⟩
        rw [hB] at hB0
        simp only [] at hB0
        cases rB with
        | error e => simp [hB, hB0, hstep]
        | ok tokB =>
          have hC0 := GetCSRFToken_authAttempts stB env.refreshFetch
          rcases hC : GetCSRFToken stB env.refreshFetch with ⟨stC, rC⟩
          rw [hC] at hC0
          simp only [] at hC0
          cases rC with
          | error e => simp [hB, hC, hC0, hB0, hstep]
          | ok tokC =>
            cases hs2 : env.send2 with
            | none => simp [hB, hC, hs2, hC0, hB0, hstep]
            | some s2 =>
              simp only [hB, hC, hs2]
              by_cases hc2 : s2 = 401 ∧ stC.username ≠ "" ∧ stC.password ≠ "" ∧
                  stC.authAttempts < MaxAuthRetryAttempts
              case pos =>
                rw [if_pos hc2]
                have hE0 := Login_authAttempts { stC with authAttempts := stC.authAttempts + 1 }
                  stC.username stC.password env.login
                rcases hE : Login { stC with authAttempts := stC.authAttempts + 1 }
                    stC.username stC.password env.login with ⟨stE, rE⟩
                rw [hE] at hE0
                simp only [] at hE0
                have hEcases : stE.authAttempts = st0.authAttempts + 1 ∨ stE.authAttempts = 0 := by
                  by_cases hx : loginExchangeOk stC.username stC.password env.login
                  · right
                    simpa [hx] using hE0
                  · left
                    rw [hE0, if_neg hx]
                    simp [hC0, hB0, hstep]
                cases rE with
                | error e => simp [hE, hEcases]
                | ok u =>
                  have hF0 := GetCSRFToken_authAttempts stE env.refreshFetch
                  rcases hF : GetCSRFToken stE env.refreshFetch with ⟨stF, rF⟩
                  rw [hF] at hF0
                  simp only [] at hF0
                  cases rF with
                  | error e => simp [hE, hF, hF0, hEcases]
                  | ok tokF =>
                    cases hs3 : env.send3 with
                    | none => simp [hE, hF, hs3, hF0, hEcases]
                    | some s3 => simp [hE, hF, hs3, hF0, hEcases]
              case neg =>
                rw [if_neg hc2]
                by_cases hc3 : s2 = 401 ∧ MaxAuthRetryAttempts ≤ stC.authAttempts
                · rw [if_pos hc3]
                  simp [hC0, hB0, hstep]
                · rw [if_neg hc3]
                  simp [hC0, hB0, hstep]

/-- Claim C1 as amended: one `DoRequest` call performs at most one full
re-login and at most three HTTP sends — the retry sequence never loops.
When the second response is unauthorized and the failed-reauthentication
counter has already reached the maximum, the caller receives the terminal
`AuthenticationError`; three consecutive unauthorized responses with a
successful re-login instead return the final unauthorized response
itself. -/
theorem claim1_retryBudget :
    (∀ (st : ClientState) (needsCSRF : Bool) (env : DoRequestEnv),
      (DoRequest st needsCSRF env).loginCalls ≤ 1 ∧ (DoRequest st needsCSRF env).httpSends ≤ 3) ∧
    (∀ (st : ClientState) (env : DoRequestEnv) (t : String),
      st.csrfToken ≠ "" → MaxAuthRetryAttempts ≤ st.authAttempts →
      env.send1 = some 401 → env.refreshFetch = some t → t ≠ "" → env.send2 = some 401 →
      (DoRequest st true env).result
        = .error (.authentication "maximum authentication retry attempts exceeded" false)) := by
  constructor
  · intro st needsCSRF env
    exact ⟨(DoRequest_authAttempts_cases st needsCSRF env).1,
           (DoRequest_authAttempts_cases st needsCSRF env).2.1⟩
  · intro st env t htok hmax hs1 hrf ht hs2
    have hnotlt : ¬ st.authAttempts < MaxAuthRetryAttempts := not_lt.mpr hmax
    have hcond : ¬ ((401 : Int) = 401 ∧ st.username ≠ "" ∧ st.password ≠ "" ∧
        st.authAttempts < MaxAuthRetryAttempts) := by tauto
    simp [DoRequest, GetCSRFToken, fetchCSRFToken, htok, hs1, hrf, ht, hs2, hnotlt, hcond, hmax]

/-- Witness for claim C1 (amended) at a concrete exhausted-counter state and
an all-unauthorized environment. -/
theorem claim1_retryBudget_witness :
    ((DoRequest stFresh true envAll401).loginCalls ≤ 1 ∧
      (DoRequest stFresh true envAll401).httpSends ≤ 3) ∧
    (DoRequest stExhausted true envAll401).result
      = .error (.authentication "maximum authentication retry attempts exceeded" false) :=
  ⟨claim1_retryBudget.1 stFresh true envAll401,
   claim1_retryBudget.2 stExhausted envAll401 "tok2" (by decide) (by decide) rfl rfl
     (by decide) rfl⟩

/-- Counterexample to claim C1 as frozen: from a fresh state, with the
server answering unauthorized to the original request, to the
token-refresh retry and to the post-re-login retry, exactly one re-login
happens but the caller receives the final unauthorized response itself,
not a terminal `AuthenticationError`. -/
theorem claim1_counterexample :
    envAll401.send1 = some 401 ∧ envAll401.send2 = some 401 ∧ envAll401.send3 = some 401 ∧
    (DoRequest stFresh true envAll401).loginCalls = 1 ∧
    (DoRequest stFresh true envAll401).result = .ok { status := 401 } :=
  ⟨rfl, rfl, rfl, by with_unfolding_all rfl, by with_unfolding_all rfl⟩

/-- Claim C8: the failed-reauthentication counter increases only inside a
single `DoRequest` call (by exactly one, together with the one re-login
attempt that call may make), it is reset to zero by `Login` exactly when
the credential exchange of a full login succeeds, and the token
fetch/read operations never touch it. -/
theorem claim8_authCounter :
    (∀ (st : ClientState) (u p : String) (env : LoginEnv),
      (Login st u p env).1.authAttempts
        = (if loginExchangeOk u p env then 0 else st.authAttempts)) ∧
    (∀ (st : ClientState) (needsCSRF : Bool) (env : DoRequestEnv),
      (DoRequest st needsCSRF env).loginCalls = 0 ∧
        (DoRequest st needsCSRF env).state.authAttempts = st.authAttempts ∨
      (DoRequest st needsCSRF env).loginCalls = 1 ∧
        ((DoRequest st needsCSRF env).state.authAttempts = st.authAttempts + 1 ∨
         (DoRequest st needsCSRF env).state.authAttempts = 0)) ∧
    (∀ (st : ClientState) (r : Option String),
      (fetchCSRFToken st r).1.authAttempts = st.authAttempts ∧
      (GetCSRFToken st r).1.authAttempts = st.authAttempts) :=
  ⟨Login_authAttempts,
   fun st needsCSRF env => (DoRequest_authAttempts_cases st needsCSRF env).2.2,
   fun st r => ⟨fetchCSRFToken_authAttempts st r, GetCSRFToken_authAttempts st r⟩⟩

end Willys
